import Mathlib

/-!
Shallow embedding of the two firmware programs of this repository:

* src/frontend/firmware/esp32_climate_sensor.py  (MicroPython, ESP32)
* src/frontend/firmware/raspberry_pi_climate_sensor.py  (Python, Raspberry Pi)

Both programs have the same shape: an infinite loop that reads the sensors,
derives a gas concentration and an air-quality category, sends the record to
the backend over HTTP, and sleeps 60 seconds.  Machine floats are modelled by
rationals; each iteration's external world (sensor outcome, transport outcome)
is an explicit input, so a run over a list of such inputs is the loop's
transcript.
-/

namespace Climate

/-- Air-quality category, the three string values "Good", "Moderate", "Poor"
   produced by both programs. -/
inductive AirQuality where
  | Good
  | Moderate
  | Poor
  deriving Repr, DecidableEq

/-- Embeds the classification expression shared by both programs
   (esp32 line 65, pi line 65):
   "Good" if co2_ppm < 400 else "Moderate" if co2_ppm < 1000 else "Poor". -/
def airQuality (c : ℚ) : AirQuality :=
  if c < 400 then .Good else if c < 1000 then .Moderate else .Poor

/-- The ESP32 ADC full-scale code: the divisor 4095.0 appearing in
   esp32_climate_sensor.py line 64 (12-bit ADC). -/
def ESP32_ADC_FULL_SCALE : ℚ := 4095

/-- The Raspberry Pi simulated ADC full-scale code: the divisor 1024.0
   appearing in raspberry_pi_climate_sensor.py line 63. -/
def PI_ADC_FULL_SCALE : ℚ := 1024

/-- Embeds esp32 line 64: co2_ppm = (mq135_raw / 4095.0) * 1000. -/
def esp32_co2_ppm (raw : ℕ) : ℚ := ((raw : ℚ) / 4095) * 1000

/-- Embeds pi line 63: co2_ppm = (mq135_raw / 1024.0) * 1000. -/
def pi_co2_ppm (raw : ℕ) : ℚ := ((raw : ℚ) / 1024) * 1000

/-- Raw sensor values available in one poll: DHT22 temperature and humidity
   and the MQ-135 raw ADC value. -/
structure RawReading where
  temperature : ℚ
  humidity : ℚ
  raw_gas : ℕ
  deriving Repr, DecidableEq

/-- The dict returned by read_sensors in both programs: temperature, humidity,
   co2, air_quality, raw_mq135.  (The pi variant additionally rounds
   temperature, humidity and co2 to two decimals for the payload with
   Python round; the rounding is not modelled — air_quality is computed from
   the unrounded co2 value in the source, and no claim depends on the
   rounded field values.) -/
structure SensorData where
  temperature : ℚ
  humidity : ℚ
  co2 : ℚ
  air_quality : AirQuality
  raw_mq135 : ℕ
  deriving Repr, DecidableEq

/-- Embeds esp32 read_sensors (lines 54-76): on a sensor exception the
   function catches it and returns None; otherwise it builds the dict from
   the DHT22 values and the MQ-135 raw value.  The input is none exactly when
   the underlying sensor read raised. -/
def esp32_read_sensors (r : Option RawReading) : Option SensorData :=
  r.map fun rr =>
    { temperature := rr.temperature
      humidity := rr.humidity
      co2 := esp32_co2_ppm rr.raw_gas
      air_quality := airQuality (esp32_co2_ppm rr.raw_gas)
      raw_mq135 := rr.raw_gas }

/-- Embeds pi ClimateSensor.read_sensors (lines 49-77): returns None when the
   DHT22 read yields None values or an exception is raised; otherwise builds
   the dict, with co2 derived from the simulated MQ-135 raw value.  The input
   is none exactly when the DHT read failed or an exception was raised. -/
def pi_read_sensors (r : Option RawReading) : Option SensorData :=
  r.map fun rr =>
    { temperature := rr.temperature
      humidity := rr.humidity
      co2 := pi_co2_ppm rr.raw_gas
      air_quality := airQuality (pi_co2_ppm rr.raw_gas)
      raw_mq135 := rr.raw_gas }

/-- Outcome of the HTTP POST as seen by send_data: either a response with a
   status code came back, or an exception was raised before a response
   existed (connection-level failure, timeout, or a serialization error while
   building the payload). -/
inductive TransportOutcome where
  | response (status : ℕ)
  | connectionError
  | timeoutError
  | serializeError
  deriving Repr, DecidableEq

/-- The exception classes that can escape the POST/serialization, before the
   surrounding try/except of send_data is taken into account. -/
inductive TransportError where
  | connection
  | timeout
  | serialize
  deriving Repr, DecidableEq

/-- What one call of send_data does: the boolean it returns and the duration
   of the status-LED pulse it performs, if any. -/
structure SendEffect where
  result : Bool
  ledPulse : Option ℚ
  deriving Repr, DecidableEq

/-- The timeout argument of the ESP32 POST call: urequests.post at esp32
   lines 96-100 is called with data and headers only — no timeout argument is
   passed. -/
def esp32_request_timeout : Option ℚ := none

/-- The timeout argument of the Raspberry Pi POST call: requests.post at pi
   lines 97-102 passes timeout=30. -/
def pi_request_timeout : Option ℚ := some 30

/-- Embeds the body of esp32 send_data (lines 80-110) without its except
   clause: build the payload, POST it, and on a 200 response print, pulse the
   LED for 0.1 s and return True, on any other status return False.  An
   exception raised inside the body is the .error case. -/
def esp32_sendBody (o : TransportOutcome) : Except TransportError SendEffect :=
  match o with
  | .response s => .ok (if s = 200 then ⟨true, some (1/10)⟩ else ⟨false, none⟩)
  | .connectionError => .error .connection
  | .timeoutError => .error .timeout
  | .serializeError => .error .serialize

/-- Embeds esp32 send_data (lines 79-114): the whole body is wrapped in
   try/except Exception, and the except clause prints the error and returns
   False (lines 112-114). -/
def esp32_send_data (o : TransportOutcome) : SendEffect :=
  match esp32_sendBody o with
  | .ok e => e
  | .error _ => ⟨false, none⟩

/-- Embeds the body of pi ClimateSensor.send_data (lines 81-111) without its
   except clauses: build the payload, POST with timeout=30, and on a 200
   response log, blink the LED for 0.1 s (blink_led, lines 120-124) and
   return True, on any other status log and return False. -/
def pi_sendBody (o : TransportOutcome) : Except TransportError SendEffect :=
  match o with
  | .response s => .ok (if s = 200 then ⟨true, some (1/10)⟩ else ⟨false, none⟩)
  | .connectionError => .error .connection
  | .timeoutError => .error .timeout
  | .serializeError => .error .serialize

/-- Embeds pi ClimateSensor.send_data (lines 79-118): RequestException
   (which covers connection errors and timeouts) is caught and returns False
   (lines 113-115), and any other exception is caught and returns False
   (lines 116-118). -/
def pi_send_data (o : TransportOutcome) : SendEffect :=
  match pi_sendBody o with
  | .ok e => e
  | .error _ => ⟨false, none⟩

/-- The external events of one iteration of the main loop: the sensor read
   outcome (none when the read failed) and the transport outcome used if a
   send is attempted this iteration. -/
structure CycleInput where
  reading : Option RawReading
  transport : TransportOutcome
  deriving Repr, DecidableEq

/-- Observable result of one iteration of the main loop: the record passed to
   send_data this iteration (if any), the boolean send_data returned, the LED
   pulse performed, the sleep executed at the end of the iteration, and the
   records the iteration keeps for later transmission. -/
structure CycleResult where
  attempted : Option SensorData
  sent : Bool
  ledPulse : Option ℚ
  sleepSeconds : ℚ
  retained : List SensorData
  loggedReadFailure : Bool
  deriving Repr, DecidableEq

/-- Embeds one iteration of esp32 main (lines 127-144): read_sensors, and if
   it returned data, print it and call send_data; otherwise print the line
   "Failed to read sensors" (loggedReadFailure); then time.sleep(60).  The
   loop body binds sensor_data afresh each iteration, discards the return
   value of send_data, and carries no variable to the next iteration, so
   retained is the empty list in both branches.  The catch-all of main
   (lines 146-151) is not reachable from the modelled events: read_sensors
   and send_data each catch their own exceptions, and KeyboardInterrupt is
   the external shutdown that ends the input list. -/
def esp32_cycle (inp : CycleInput) : CycleResult :=
  match esp32_read_sensors inp.reading with
  | some d =>
      let e := esp32_send_data inp.transport
      { attempted := some d, sent := e.result, ledPulse := e.ledPulse
        sleepSeconds := 60, retained := [], loggedReadFailure := false }
  | none =>
      { attempted := none, sent := false, ledPulse := none
        sleepSeconds := 60, retained := [], loggedReadFailure := true }

/-- Embeds one iteration of pi ClimateSensor.run (lines 131-148): identical
   control flow to the esp32 loop; nothing is carried across iterations. -/
def pi_cycle (inp : CycleInput) : CycleResult :=
  match pi_read_sensors inp.reading with
  | some d =>
      let e := pi_send_data inp.transport
      { attempted := some d, sent := e.result, ledPulse := e.ledPulse
        sleepSeconds := 60, retained := [], loggedReadFailure := false }
  | none =>
      { attempted := none, sent := false, ledPulse := none
        sleepSeconds := 60, retained := [], loggedReadFailure := true }

/-- Transcript of the esp32 main loop over a finite list of iteration
   inputs (the loop itself runs until an external KeyboardInterrupt; a
   finite input list models the iterations executed before shutdown).  The
   loop threads no state from one iteration to the next, so the run is the
   per-iteration map. -/
def esp32_run : List CycleInput → List CycleResult
  | [] => []
  | i :: rest => esp32_cycle i :: esp32_run rest

/-- Transcript of the pi ClimateSensor.run loop over a finite list of
   iteration inputs. -/
def pi_run : List CycleInput → List CycleResult
  | [] => []
  | i :: rest => pi_cycle i :: pi_run rest

/-- The records handed to send_data over a run, in order of attempt. -/
def esp32_attempts (l : List CycleInput) : List SensorData :=
  (esp32_run l).filterMap (·.attempted)

/-- The records handed to send_data over a pi run, in order of attempt. -/
def pi_attempts (l : List CycleInput) : List SensorData :=
  (pi_run l).filterMap (·.attempted)

/-- Follows the spec's words (DeliveryQueue, drop-oldest): enqueue into a
   capacity-N buffer appends at the back when there is room, and otherwise
   evicts the oldest element (the head) to admit the new one at the back.
   This definition is written from the spec, not from the source, to be
   compared against the source's behaviour. -/
def spec_enqueue_dropOldest (N : ℕ) (q : List SensorData) (r : SensorData) :
    List SensorData :=
  if q.length < N then q ++ [r] else q.drop 1 ++ [r]

/-- The reading of spec scenario A: temperature 24.5, humidity 55.0,
   raw gas 200. -/
def readingA : RawReading := ⟨49/2, 55, 200⟩

/-- The reading of spec scenario B: temperature 22.0, humidity 60.0,
   raw gas 2048. -/
def readingB : RawReading := ⟨22, 60, 2048⟩

/-- The record esp32 read_sensors builds from readingA. -/
def recordA : SensorData := ⟨49/2, 55, esp32_co2_ppm 200, .Good, 200⟩

/-- The record esp32 read_sensors builds from readingB. -/
def recordB : SensorData := ⟨22, 60, esp32_co2_ppm 2048, .Moderate, 2048⟩

theorem esp32_run_append (a b : List CycleInput) :
    esp32_run (a ++ b) = esp32_run a ++ esp32_run b := by
  induction a with
  | nil => rfl
  | cons x xs ih => simp [esp32_run, ih]

theorem pi_run_append (a b : List CycleInput) :
    pi_run (a ++ b) = pi_run a ++ pi_run b := by
  induction a with
  | nil => rfl
  | cons x xs ih => simp [pi_run, ih]

theorem esp32_cycle_attempted (i : CycleInput) :
    (esp32_cycle i).attempted = esp32_read_sensors i.reading := by
  unfold esp32_cycle
  cases esp32_read_sensors i.reading <;> rfl

theorem pi_cycle_attempted (i : CycleInput) :
    (pi_cycle i).attempted = pi_read_sensors i.reading := by
  unfold pi_cycle
  cases pi_read_sensors i.reading <;> rfl

theorem esp32_cycle_retained (i : CycleInput) :
    (esp32_cycle i).retained = [] := by
  unfold esp32_cycle
  cases esp32_read_sensors i.reading <;> rfl

theorem pi_cycle_retained (i : CycleInput) :
    (pi_cycle i).retained = [] := by
  unfold pi_cycle
  cases pi_read_sensors i.reading <;> rfl

theorem esp32_cycle_sleep (i : CycleInput) :
    (esp32_cycle i).sleepSeconds = 60 := by
  unfold esp32_cycle
  cases esp32_read_sensors i.reading <;> rfl

theorem pi_cycle_sleep (i : CycleInput) :
    (pi_cycle i).sleepSeconds = 60 := by
  unfold pi_cycle
  cases pi_read_sensors i.reading <;> rfl

theorem esp32_attempts_eq (l : List CycleInput) :
    esp32_attempts l = l.filterMap fun i => esp32_read_sensors i.reading := by
  induction l with
  | nil => rfl
  | cons x xs ih =>
      unfold esp32_attempts esp32_run
      rw [List.filterMap_cons, List.filterMap_cons, esp32_cycle_attempted]
      unfold esp32_attempts at ih
      cases esp32_read_sensors x.reading <;> simp [ih]

theorem pi_attempts_eq (l : List CycleInput) :
    pi_attempts l = l.filterMap fun i => pi_read_sensors i.reading := by
  induction l with
  | nil => rfl
  | cons x xs ih =>
      unfold pi_attempts pi_run
      rw [List.filterMap_cons, List.filterMap_cons, pi_cycle_attempted]
      unfold pi_attempts at ih
      cases pi_read_sensors x.reading <;> simp [ih]

theorem esp32_read_readingA :
    esp32_read_sensors (some readingA) = some recordA := by
  simp only [esp32_read_sensors, readingA, recordA, Option.map_some]
  norm_num [airQuality, esp32_co2_ppm]

theorem esp32_read_readingB :
    esp32_read_sensors (some readingB) = some recordB := by
  simp only [esp32_read_sensors, readingB, recordB, Option.map_some]
  norm_num [airQuality, esp32_co2_ppm]

/-- C3: for every raw gas value the derived concentration is
   (raw / ADC_FULL_SCALE) * 1000 with a fixed device-specific full-scale
   constant (4095 on the ESP32, 1024 on the Pi); at raw_gas = 200 with
   full scale 4095 the concentration is within 0.01 of 48.84 and the
   category is Good. -/
theorem c3_concentration_formula :
    (∀ raw : ℕ, esp32_co2_ppm raw = (raw : ℚ) / ESP32_ADC_FULL_SCALE * 1000) ∧
    (∀ raw : ℕ, pi_co2_ppm raw = (raw : ℚ) / PI_ADC_FULL_SCALE * 1000) ∧
    |esp32_co2_ppm 200 - 4884/100| < 1/100 ∧
    airQuality (esp32_co2_ppm 200) = .Good ∧
    esp32_read_sensors (some readingA) = some recordA := by
  refine ⟨fun raw => rfl, fun raw => rfl, ?_, ?_, ?_⟩
  · rw [abs_sub_lt_iff]
    norm_num [esp32_co2_ppm]
  · norm_num [airQuality, esp32_co2_ppm]
  · exact esp32_read_readingA

/-- C4: the derived category is Good exactly below 400, Moderate exactly on
   [400, 1000), Poor exactly from 1000 up; both boundary values fall in the
   higher category. -/
theorem c4_category_thresholds :
    ∀ c : ℚ,
      (airQuality c = .Good ↔ c < 400) ∧
      (airQuality c = .Moderate ↔ 400 ≤ c ∧ c < 1000) ∧
      (airQuality c = .Poor ↔ 1000 ≤ c) ∧
      airQuality (400 : ℚ) = .Moderate ∧
      airQuality (1000 : ℚ) = .Poor := by
  intro c
  have hG : airQuality c = .Good ↔ c < 400 := by
    unfold airQuality
    split_ifs with ha hb <;> simp <;> linarith
  have hM : airQuality c = .Moderate ↔ 400 ≤ c ∧ c < 1000 := by
    unfold airQuality
    split_ifs with ha hb
    · simp
      intro h
      linarith
    · simp
      exact ⟨by linarith, hb⟩
    · simp
      intro h
      linarith
  have hP : airQuality c = .Poor ↔ 1000 ≤ c := by
    unfold airQuality
    split_ifs with ha hb <;> simp <;> linarith
  exact ⟨hG, hM, hP, by norm_num [airQuality], by norm_num [airQuality]⟩

/-- C6: the send returns True exactly on an HTTP 200 response, and exactly
   then the status LED is pulsed, for the fixed brief duration 0.1 s; any
   other status or a transport exception returns False with no pulse.  Holds
   for both programs. -/
theorem c6_delivered_iff_200 :
    ∀ o : TransportOutcome,
      ((esp32_send_data o).result = true ↔ o = .response 200) ∧
      ((esp32_send_data o).ledPulse =
        if o = .response 200 then some (1/10) else none) ∧
      (esp32_send_data o).ledPulse.getD 0 ≤ 1/10 ∧
      ((pi_send_data o).result = true ↔ o = .response 200) ∧
      ((pi_send_data o).ledPulse =
        if o = .response 200 then some (1/10) else none) ∧
      (pi_send_data o).ledPulse.getD 0 ≤ 1/10 := by
  intro o
  cases o with
  | response s =>
      by_cases hs : s = 200 <;>
        simp [esp32_send_data, esp32_sendBody, pi_send_data, pi_sendBody, hs]
  | connectionError =>
      simp [esp32_send_data, esp32_sendBody, pi_send_data, pi_sendBody]
  | timeoutError =>
      simp [esp32_send_data, esp32_sendBody, pi_send_data, pi_sendBody]
  | serializeError =>
      simp [esp32_send_data, esp32_sendBody, pi_send_data, pi_sendBody]

/-- C7 counterexample: the ESP32 POST call is made with no timeout argument,
   so not every network transmission attempt carries a hard upper time
   bound — the claim fails on the ESP32 program. -/
theorem c7_counterexample :
    esp32_request_timeout = none ∧
    ¬ ∃ b : ℚ, esp32_request_timeout = some b := by
  refine ⟨rfl, ?_⟩
  rintro ⟨b, hb⟩
  simp [esp32_request_timeout] at hb

/-- C7 amended: the Raspberry Pi variant bounds every attempt by a 30-second
   timeout and classifies a timeout identically to a connection-level
   failure (both are caught and produce the same False result, no pulse);
   the ESP32 variant also classifies the two identically but passes no
   timeout, so its attempts carry no hard upper time bound. -/
theorem c7_timeout_policy :
    pi_request_timeout = some 30 ∧
    pi_send_data .timeoutError = pi_send_data .connectionError ∧
    pi_send_data .timeoutError = ⟨false, none⟩ ∧
    esp32_request_timeout = none ∧
    esp32_send_data .timeoutError = esp32_send_data .connectionError := by
  exact ⟨rfl, rfl, rfl, rfl, rfl⟩

/-- C8: on [0, full scale] the derived concentration is monotonically
   non-decreasing in the raw gas value, in both programs. -/
theorem c8_concentration_monotone (v1 v2 : ℕ) (h : v1 ≤ v2) (h2 : v2 ≤ 4095) :
    esp32_co2_ppm v1 ≤ esp32_co2_ppm v2 ∧ pi_co2_ppm v1 ≤ pi_co2_ppm v2 := by
  have hc : (v1 : ℚ) ≤ v2 := by exact_mod_cast h
  constructor
  · unfold esp32_co2_ppm
    linarith
  · unfold pi_co2_ppm
    linarith

/-- C8 witness at v1 = 100, v2 = 200. -/
theorem c8_concentration_monotone_witness :
    esp32_co2_ppm 100 ≤ esp32_co2_ppm 200 ∧ pi_co2_ppm 100 ≤ pi_co2_ppm 200 :=
  c8_concentration_monotone 100 200 (by decide) (by decide)

/-- C1 counterexample: one loop iteration in which a record is produced
   (reading A) and its only transmission attempt fails with a connection
   error, so the record is neither delivered nor evicted by a full-buffer
   enqueue.  The claimed capacity-N FIFO would hold the admitted record
   (the spec's drop-oldest enqueue of the record into the empty buffer is
   the one-element buffer), but the program retains nothing across the
   iteration: no delivery buffer exists in which the new record is admitted
   at the back, so the claim fails as stated. -/
theorem c1_counterexample :
    (esp32_cycle ⟨some readingA, .connectionError⟩).attempted = some recordA ∧
    (esp32_cycle ⟨some readingA, .connectionError⟩).sent = false ∧
    spec_enqueue_dropOldest 5 [] recordA = [recordA] ∧
    (esp32_cycle ⟨some readingA, .connectionError⟩).retained = [] ∧
    recordA ∉ (esp32_cycle ⟨some readingA, .connectionError⟩).retained := by
  refine ⟨?_, ?_, ?_, ?_, ?_⟩
  · rw [esp32_cycle_attempted]
    exact esp32_read_readingA
  · simp [esp32_cycle, esp32_read_sensors, readingA, esp32_send_data,
      esp32_sendBody]
  · simp [spec_enqueue_dropOldest]
  · exact esp32_cycle_retained _
  · rw [esp32_cycle_retained]
    simp

/-- C1 amended: the program maintains no delivery buffer at all: every loop
   iteration retains nothing for later transmission (the set of records
   awaiting transmission at every iteration boundary is empty, trivially
   within any capacity bound), and a run splits into independent iterations
   with no state crossing an iteration boundary, so no eviction ever
   occurs.  Holds for both programs. -/
theorem c1_no_delivery_buffer (l : List CycleInput) :
    ((esp32_run l).map (·.retained) = l.map fun _ => ([] : List SensorData)) ∧
    ((pi_run l).map (·.retained) = l.map fun _ => ([] : List SensorData)) ∧
    (∀ l2, esp32_run (l ++ l2) = esp32_run l ++ esp32_run l2) ∧
    (∀ l2, pi_run (l ++ l2) = pi_run l ++ pi_run l2) := by
  refine ⟨?_, ?_, fun l2 => esp32_run_append l l2, fun l2 => pi_run_append l l2⟩
  · induction l with
    | nil => rfl
    | cons x xs ih => simp [esp32_run, esp32_cycle_retained, ih]
  · induction l with
    | nil => rfl
    | cons x xs ih => simp [pi_run, pi_cycle_retained, ih]

/-- C2 counterexample: a two-iteration run in which the first record's
   attempt fails with a connection error (the spec's RetryableFailure) and a
   second record is then produced.  The claim says the failed record is
   requeued and is the next one attempted; the program instead attempts the
   fresh second record next, and the failed first record never reappears. -/
theorem c2_counterexample :
    esp32_attempts
        [⟨some readingA, .connectionError⟩, ⟨some readingB, .response 200⟩]
      = [recordA, recordB] ∧
    recordA ≠ recordB := by
  constructor
  · rw [esp32_attempts_eq]
    simp [List.filterMap_cons, esp32_read_readingA, esp32_read_readingB]
  · intro heq
    have hraw := congrArg SensorData.raw_mq135 heq
    simp [recordA, recordB] at hraw

/-- C2 amended: there is no retry: over any run the records handed to
   send_data are exactly the records produced by the successful sensor
   reads, each attempted exactly once in its own iteration and never again
   regardless of outcome (a failed record is discarded, not requeued), and
   the delay between iterations is the fixed 60-second sleep — no
   exponential backoff exists.  Holds for both programs. -/
theorem c2_no_retry (l : List CycleInput) :
    (esp32_attempts l = l.filterMap fun i => esp32_read_sensors i.reading) ∧
    (pi_attempts l = l.filterMap fun i => pi_read_sensors i.reading) ∧
    ((esp32_run l).map (·.sleepSeconds) = l.map fun _ => (60 : ℚ)) ∧
    ((pi_run l).map (·.sleepSeconds) = l.map fun _ => (60 : ℚ)) := by
  refine ⟨esp32_attempts_eq l, pi_attempts_eq l, ?_, ?_⟩
  · induction l with
    | nil => rfl
    | cons x xs ih => simp [esp32_run, esp32_cycle_sleep, ih]
  · induction l with
    | nil => rfl
    | cons x xs ih => simp [pi_run, pi_cycle_sleep, ih]

/-- C5: a sensor-read failure in any iteration does not terminate the loop:
   that iteration produces no record, attempts no send, pulses no LED, logs
   the read failure, and sleeps the normal 60 seconds, and all remaining
   iterations run unchanged.  Holds for both programs. -/
theorem c5_read_failure_nonfatal (pre post : List CycleInput) (i : CycleInput)
    (h : i.reading = none) :
    esp32_run (pre ++ i :: post) =
      esp32_run pre ++ ⟨none, false, none, 60, [], true⟩ :: esp32_run post ∧
    pi_run (pre ++ i :: post) =
      pi_run pre ++ ⟨none, false, none, 60, [], true⟩ :: pi_run post := by
  have he : esp32_cycle i = ⟨none, false, none, 60, [], true⟩ := by
    simp [esp32_cycle, esp32_read_sensors, h]
  have hp : pi_cycle i = ⟨none, false, none, 60, [], true⟩ := by
    simp [pi_cycle, pi_read_sensors, h]
  constructor
  · rw [esp32_run_append]
    simp [esp32_run, he]
  · rw [pi_run_append]
    simp [pi_run, hp]

/-- C5 witness: the theorem at the one-iteration run whose read fails. -/
theorem c5_read_failure_nonfatal_witness :
    esp32_run ([] ++ (⟨none, .response 200⟩ : CycleInput) :: []) =
      esp32_run [] ++ ⟨none, false, none, 60, [], true⟩ :: esp32_run [] ∧
    pi_run ([] ++ (⟨none, .response 200⟩ : CycleInput) :: []) =
      pi_run [] ++ ⟨none, false, none, 60, [], true⟩ :: pi_run [] :=
  c5_read_failure_nonfatal [] [] ⟨none, .response 200⟩ rfl

/-- C9: send_data never propagates an exception to the loop: whenever the
   body of the send raises (connection, timeout or serialization failure),
   the except clause turns it into the boolean failure result False with no
   pulse; and there is no buffering: over any run each produced record is
   handed to send_data exactly once, in its own iteration, and no iteration
   retains records for a later attempt. -/
theorem c9_send_total_no_rebuffer :
    (∀ o e, esp32_sendBody o = .error e → esp32_send_data o = ⟨false, none⟩) ∧
    (∀ o e, pi_sendBody o = .error e → pi_send_data o = ⟨false, none⟩) ∧
    (∀ l, esp32_attempts l =
      l.filterMap fun i => esp32_read_sensors i.reading) ∧
    (∀ l, pi_attempts l = l.filterMap fun i => pi_read_sensors i.reading) ∧
    (∀ l, (esp32_run l).map (·.retained) =
      l.map fun _ => ([] : List SensorData)) := by
  refine ⟨?_, ?_, esp32_attempts_eq, pi_attempts_eq, ?_⟩
  · intro o e he
    unfold esp32_send_data
    rw [he]
  · intro o e he
    unfold pi_send_data
    rw [he]
  · intro l
    induction l with
    | nil => rfl
    | cons x xs ih => simp [esp32_run, esp32_cycle_retained, ih]

/-- C9 witness: the exception-to-False mapping at a connection error and at
   a timeout. -/
theorem c9_send_total_no_rebuffer_witness :
    esp32_send_data .connectionError = ⟨false, none⟩ ∧
    pi_send_data .timeoutError = ⟨false, none⟩ :=
  ⟨c9_send_total_no_rebuffer.1 .connectionError .connection rfl,
   c9_send_total_no_rebuffer.2.1 .timeoutError .timeout rfl⟩

/-- C10: for any simulated MQ-135 value in [100, 1000] (the range of
   randint(100, 1000)), the pi concentration lies in
   [3125/32, 15625/16] = [97.65625, 976.5625], each bound within 0.01 of
   the stated approximate bounds 97.66 and 976.56; the produced record
   carries exactly that concentration and its category is Good or Moderate,
   never Poor. -/
theorem c10_pi_never_poor (raw : ℕ) (t h : ℚ)
    (h1 : 100 ≤ raw) (h2 : raw ≤ 1000) :
    3125/32 ≤ pi_co2_ppm raw ∧ pi_co2_ppm raw ≤ 15625/16 ∧
    airQuality (pi_co2_ppm raw) ≠ .Poor ∧
    (airQuality (pi_co2_ppm raw) = .Good ∨
      airQuality (pi_co2_ppm raw) = .Moderate) ∧
    pi_read_sensors (some ⟨t, h, raw⟩) =
      some ⟨t, h, pi_co2_ppm raw, airQuality (pi_co2_ppm raw), raw⟩ ∧
    |(3125/32 : ℚ) - 9766/100| < 1/100 ∧
    |(15625/16 : ℚ) - 97656/100| < 1/100 := by
  have hc1 : (100 : ℚ) ≤ raw := by exact_mod_cast h1
  have hc2 : (raw : ℚ) ≤ 1000 := by exact_mod_cast h2
  have hlo : 3125/32 ≤ pi_co2_ppm raw := by
    unfold pi_co2_ppm
    linarith
  have hhi : pi_co2_ppm raw ≤ 15625/16 := by
    unfold pi_co2_ppm
    linarith
  have hcat : airQuality (pi_co2_ppm raw) ≠ .Poor := by
    unfold airQuality
    split_ifs with ha hb
    · simp
    · simp
    · exact absurd hhi (by linarith)
  have hgm : airQuality (pi_co2_ppm raw) = .Good ∨
      airQuality (pi_co2_ppm raw) = .Moderate := by
    cases hq : airQuality (pi_co2_ppm raw) with
    | Good => exact Or.inl rfl
    | Moderate => exact Or.inr rfl
    | Poor => exact absurd hq hcat
  refine ⟨hlo, hhi, hcat, hgm, rfl, ?_, ?_⟩
  · rw [abs_sub_lt_iff]
    norm_num
  · rw [abs_sub_lt_iff]
    norm_num

/-- C10 witness at raw = 512, temperature 22, humidity 55. -/
theorem c10_pi_never_poor_witness :
    3125/32 ≤ pi_co2_ppm 512 ∧ pi_co2_ppm 512 ≤ 15625/16 ∧
    airQuality (pi_co2_ppm 512) ≠ .Poor ∧
    (airQuality (pi_co2_ppm 512) = .Good ∨
      airQuality (pi_co2_ppm 512) = .Moderate) ∧
    pi_read_sensors (some ⟨22, 55, 512⟩) =
      some ⟨22, 55, pi_co2_ppm 512, airQuality (pi_co2_ppm 512), 512⟩ ∧
    |(3125/32 : ℚ) - 9766/100| < 1/100 ∧
    |(15625/16 : ℚ) - 97656/100| < 1/100 :=
  c10_pi_never_poor 512 22 55 (by norm_num) (by norm_num)

end Climate
